import Mathlib

/-!
Shallow embedding of the secureChat canister (src/src/index.ts).

The three `StableBTreeMap` collections become functions into `Option`;
`Principal` becomes an opaque comparable token modelled as `Nat`;
`nat64` values (session ids, timestamps) become `Nat`; `Vec` becomes
`List`. Each `update` method becomes a function from the store (plus its
arguments and, where the source reads `ic.time()` or `Math.random()`,
explicit parameters for those environment inputs) to a result paired with
the new store. Error detail strings are dropped; only the variant tag of
the `Error` variant matters to the claims.
-/

namespace SecureChat

/-- Caller identity (azle `Principal`): opaque, compared by equality. -/
abbrev Principal := Nat

/-- `INTEGER_LIMIT = Math.pow(2, 53) - 1` (index.ts line 21). -/
def INTEGER_LIMIT : Nat := 2 ^ 53 - 1

/-- `MAXIMUM_SESSIONS = 20` (index.ts line 23). -/
def MAXIMUM_SESSIONS : Nat := 20

/-- `MAX_MSG_PER_SESSION = 200` (index.ts line 25). -/
def MAX_MSG_PER_SESSION : Nat := 200

/-- The `Message` record (index.ts lines 27-33). -/
structure Message where
  sender : Principal
  receiver : Principal
  messageText : String
  messageTime : Nat
deriving DecidableEq, Repr

/-- The `Session` record (index.ts lines 35-39). -/
structure Session where
  id : Nat
  user : Principal
deriving DecidableEq, Repr

/-- The `MessageNotification` record (index.ts lines 41-46). -/
structure MessageNotification where
  sender : Principal
  id : Nat
  messageTime : Nat
deriving DecidableEq, Repr

/-- The `Error` variant (index.ts lines 48-55), detail strings dropped. -/
inductive ChatError where
  | NoManager
  | NoSession
  | NotFound
  | DuplicateAttempt
  | MaxSessionsReached
  | MaxMessageReached
deriving DecidableEq, Repr

/-- The three `StableBTreeMap` collections (index.ts lines 59-65):
`userChatIDs` (memory 0), `chatData` (memory 1), `unreadMessages`
(memory 2). -/
structure Store where
  userChatIDs : Principal → Option (List Session)
  chatData : Nat → Option (List Message)
  unreadMessages : Principal → Option (List MessageNotification)

/-- The store at canister installation: all three maps empty. -/
def emptyStore : Store where
  userChatIDs := fun _ => none
  chatData := fun _ => none
  unreadMessages := fun _ => none

/-- `StableBTreeMap.insert k v` / `remove k` as a pointwise map update
(insert passes `some v`, remove passes `none`). -/
def upd {α : Type} (m : Nat → Option α) (k : Nat) (v : Option α) :
    Nat → Option α :=
  fun x => if x = k then v else m x

/-- The id-generation loop of `createSession` (index.ts lines 76-79):
draw from the random source until the drawn value is not already a key of
`chatData`. Each draw is `generateRandomID()` =
`Math.floor(Math.random() * INTEGER_LIMIT)`, a natural below
`INTEGER_LIMIT`; the stream of draws is modelled as a list, the result is
`none` when the list is exhausted before a fresh id is found. -/
def generateSessionID (chat : Nat → Option (List Message)) :
    List Nat → Option Nat
  | [] => none
  | d :: ds => if (chat d).isSome then generateSessionID chat ds else some d

/-- `createSession` (index.ts lines 74-108), with the id produced by the
generate-and-check loop (see `generateSessionID`) passed in as `newID`. -/
def createSession (st : Store) (caller friendPrincipal : Principal)
    (newID : Nat) : Except ChatError Bool × Store :=
  let newSession : Session := { id := newID, user := friendPrincipal }
  match st.userChatIDs caller with
  | none =>
      let st1 := { st with userChatIDs := upd st.userChatIDs caller (some [newSession]) }
      let st2 := { st1 with chatData := upd st1.chatData newID (some []) }
      (.ok true, st2)
  | some userSessions =>
      if userSessions.length > MAXIMUM_SESSIONS then
        (.error .MaxSessionsReached, st)
      else if userSessions.any (fun s => s.user = friendPrincipal) then
        (.error .DuplicateAttempt, st)
      else
        let st1 := { st with userChatIDs := upd st.userChatIDs caller (some (userSessions ++ [newSession])) }
        let st2 := { st1 with chatData := upd st1.chatData newID (some []) }
        (.ok true, st2)

/-- JavaScript `Array.prototype.includes` applied to a freshly allocated
object literal (index.ts line 145 and line 184: the `removedSession`
record is constructed immediately before the call). `includes` compares
objects with SameValueZero, which for objects is reference identity, so a
fresh literal is never found in the stored array and the call returns
`false` regardless of the array's contents. -/
def jsIncludesFresh (_ : List Session) (_ : Session) : Bool := false

/-- `removeSession` (index.ts lines 115-162). The JS `filter` callback
assigns `removedID` on every match, so `removedID` ends as the id of the
last matching session (0 if none matched). -/
def removeSession (st : Store) (caller friendPrincipal : Principal) :
    Except ChatError Bool × Store :=
  match st.userChatIDs caller with
  | none => (.error .NoSession, st)
  | some userSessions =>
      let removedID :=
        userSessions.foldl (fun acc s => if s.user = friendPrincipal then s.id else acc) 0
      let newSession := userSessions.filter (fun s => !(s.user = friendPrincipal : Bool))
      if newSession.length = userSessions.length then
        (.error .NotFound, st)
      else
        let st1 := { st with userChatIDs := upd st.userChatIDs caller (some newSession) }
        match st1.userChatIDs friendPrincipal with
        | none =>
            (.ok true, { st1 with chatData := upd st1.chatData removedID none })
        | some friendSessions =>
            let removedSession : Session := { id := removedID, user := caller }
            if jsIncludesFresh friendSessions removedSession then
              (.ok true, st1)
            else
              let st2 := { st1 with chatData := upd st1.chatData removedID none }
              let st3 :=
                match st2.unreadMessages friendPrincipal with
                | none => st2
                | some friendNotifs =>
                    { st2 with
                        unreadMessages :=
                          upd st2.unreadMessages friendPrincipal
                            (some (friendNotifs.filter (fun n => n.id != removedID))) }
              let st4 :=
                match st3.unreadMessages caller with
                | none => st3
                | some userNotifs =>
                    { st3 with
                        unreadMessages :=
                          upd st3.unreadMessages caller
                            (some (userNotifs.filter (fun n => n.id != removedID))) }
              (.ok true, st4)

/-- One iteration of the `removeAllSessions` loop body (index.ts lines
173-199): the cascade check and deletions for a single session of the
caller's list. -/
def cascadeOne (caller : Principal) (st : Store) (session : Session) : Store :=
  match st.userChatIDs session.user with
  | none => { st with chatData := upd st.chatData session.id none }
  | some friendSessions =>
      let removedSession : Session := { id := session.id, user := caller }
      if jsIncludesFresh friendSessions removedSession then st
      else
        let st1 := { st with chatData := upd st.chatData session.id none }
        let st2 :=
          match st1.unreadMessages session.user with
          | none => st1
          | some friendNotifs =>
              { st1 with
                  unreadMessages :=
                    upd st1.unreadMessages session.user
                      (some (friendNotifs.filter (fun n => n.id != session.id))) }
        let st3 :=
          match st2.unreadMessages caller with
          | none => st2
          | some userNotifs =>
              { st2 with
                  unreadMessages :=
                    upd st2.unreadMessages caller
                      (some (userNotifs.filter (fun n => n.id != session.id))) }
        st3

/-- `removeAllSessions` (index.ts lines 168-204): cascade for each session
of the caller's list in order, then overwrite the caller's entry with the
empty list. -/
def removeAllSessions (st : Store) (caller : Principal) :
    Except ChatError Bool × Store :=
  match st.userChatIDs caller with
  | none => (.error .NoSession, st)
  | some userSessions =>
      let st1 := userSessions.foldl (cascadeOne caller) st
      (.ok true, { st1 with userChatIDs := upd st1.userChatIDs caller (some []) })

/-- The `forEach` scan used by `sendMessage`, `viewMessages` and
`getTotalSessionMessages` (index.ts lines 219-223 and alike): `ID` starts
at 0 and is overwritten on every match, ending as the id of the last
session whose `user` equals the target (0 if none). -/
def scanID (sessions : List Session) (target : Principal) : Nat :=
  sessions.foldl (fun acc s => if s.user = target then s.id else acc) 0

/-- The notification enqueue at the end of `sendMessage` (index.ts lines
249-261). -/
def pushNotification (st : Store) (caller receiver : Principal)
    (ID now : Nat) : Store :=
  let newNotification : MessageNotification :=
    { sender := caller, id := ID, messageTime := now }
  match st.unreadMessages receiver with
  | none =>
      { st with unreadMessages := upd st.unreadMessages receiver (some [newNotification]) }
  | some cur =>
      { st with unreadMessages := upd st.unreadMessages receiver (some (cur ++ [newNotification])) }

/-- `sendMessage` (index.ts lines 212-263); `now` stands for `ic.time()`. -/
def sendMessage (st : Store) (caller receiver : Principal)
    (message : String) (now : Nat) : Except ChatError Bool × Store :=
  match st.userChatIDs caller with
  | none => (.error .NoSession, st)
  | some userSessions =>
      let ID := scanID userSessions receiver
      if ID = 0 then (.error .NotFound, st)
      else
        let newMessage : Message :=
          { sender := caller, receiver := receiver, messageText := message, messageTime := now }
        match st.chatData ID with
        | none =>
            let st1 := { st with chatData := upd st.chatData ID (some [newMessage]) }
            (.ok true, pushNotification st1 caller receiver ID now)
        | some currentMessages =>
            if currentMessages.length > MAX_MSG_PER_SESSION then
              (.error .MaxMessageReached, st)
            else
              let st1 := { st with chatData := upd st.chatData ID (some (currentMessages ++ [newMessage])) }
              (.ok true, pushNotification st1 caller receiver ID now)

/-- `viewNotifications` (index.ts lines 269-277): pure read. -/
def viewNotifications (st : Store) (caller : Principal) :
    List MessageNotification :=
  match st.unreadMessages caller with
  | none => []
  | some cur => cur

/-- `viewMessages` (index.ts lines 284-314). -/
def viewMessages (st : Store) (caller friendPrincipal : Principal) :
    Except ChatError (List Message) × Store :=
  match st.userChatIDs caller with
  | none => (.error .NoSession, st)
  | some userSessions =>
      let ID := scanID userSessions friendPrincipal
      if ID = 0 then (.error .NotFound, st)
      else
        match st.chatData ID with
        | none => (.error .NotFound, st)
        | some currentMessages =>
            let st1 :=
              match st.unreadMessages caller with
              | none => st
              | some cur =>
                  { st with
                      unreadMessages :=
                        upd st.unreadMessages caller
                          (some (cur.filter (fun n => n.id != ID))) }
            (.ok currentMessages, st1)

/-- `getSessionID` (index.ts lines 321-333): a `for` loop returning the
first match. -/
def getSessionID (st : Store) (caller friendPrincipal : Principal) :
    Except ChatError Nat :=
  match st.userChatIDs caller with
  | none => .error .NoSession
  | some userSessions =>
      match userSessions.find? (fun s => s.user = friendPrincipal) with
      | some s => .ok s.id
      | none => .error .NotFound

/-- `getAllSessions` (index.ts lines 339-346). -/
def getAllSessions (st : Store) (caller : Principal) :
    Except ChatError (List Session) :=
  match st.userChatIDs caller with
  | none => .error .NoSession
  | some userSessions => .ok userSessions

/-- `getTotalSessions` (index.ts lines 352-359). -/
def getTotalSessions (st : Store) (caller : Principal) : Nat :=
  match st.userChatIDs caller with
  | none => 0
  | some userSessions => userSessions.length

/-- `getTotalSessionMessages` (index.ts lines 366-387). -/
def getTotalSessionMessages (st : Store) (caller friendPrincipal : Principal) :
    Except ChatError Nat :=
  match st.userChatIDs caller with
  | none => .error .NoSession
  | some userSessions =>
      let ID := scanID userSessions friendPrincipal
      if ID = 0 then .error .NotFound
      else
        match st.chatData ID with
        | none => .error .NotFound
        | some currentMessages => .ok currentMessages.length

/-- States reachable from the installation state by any sequence of
`createSession`, `removeSession` and `removeAllSessions` calls (the three
operations that mutate the Session Directory). -/
inductive Reachable : Store → Prop
  | init : Reachable emptyStore
  | create (caller friendPrincipal : Principal) (newID : Nat) {st : Store} :
      Reachable st → Reachable (createSession st caller friendPrincipal newID).2
  | remove (caller friendPrincipal : Principal) {st : Store} :
      Reachable st → Reachable (removeSession st caller friendPrincipal).2
  | removeAll (caller : Principal) {st : Store} :
      Reachable st → Reachable (removeAllSessions st caller).2

/-- The §3 invariant: within one caller's session list, counterparty
values are pairwise distinct. -/
def uniqueCounterparties (l : List Session) : Prop :=
  l.Pairwise (fun a b => a.user ≠ b.user)

/-- Example state: users 1 and 2 each hold a directory entry listing the
other under the shared session id 5, with an (empty) Message Log entry at
5 and no pending notifications. -/
def stAB : Store where
  userChatIDs := fun p =>
    if p = 1 then some [⟨5, 2⟩] else if p = 2 then some [⟨5, 1⟩] else none
  chatData := fun k => if k = 5 then some [] else none
  unreadMessages := fun _ => none

/-- Twenty sessions with pairwise-distinct counterparties 101..120. -/
def ex20 : List Session := (List.range 20).map (fun i => ⟨i + 1, 101 + i⟩)

/-- Example state: user 1 holds exactly `MAXIMUM_SESSIONS` sessions. -/
def st20 : Store where
  userChatIDs := fun p => if p = 1 then some ex20 else none
  chatData := fun _ => none
  unreadMessages := fun _ => none

/-- A log of `n` identical messages from 1 to 2. -/
def mkMsgs (n : Nat) : List Message := (List.range n).map (fun i => ⟨1, 2, "x", i⟩)

/-- Example state: user 1 has one session (id 5, counterparty 2) whose
Message Log holds `n` messages. -/
def stLog (n : Nat) : Store where
  userChatIDs := fun p => if p = 1 then some [⟨5, 2⟩] else none
  chatData := fun k => if k = 5 then some (mkMsgs n) else none
  unreadMessages := fun _ => none

/-- Example state: user 1 has sessions 5 (with 2) and 7 (with 3), and a
notification queue mixing both session ids. -/
def stNotifs : Store where
  userChatIDs := fun p => if p = 1 then some [⟨5, 2⟩, ⟨7, 3⟩] else none
  chatData := fun k => if k = 5 then some (mkMsgs 2) else if k = 7 then some [] else none
  unreadMessages := fun p =>
    if p = 1 then some [⟨2, 5, 1⟩, ⟨3, 7, 2⟩, ⟨2, 5, 3⟩] else none

/-- Example state: user 1 lists a session with user 2 under id 5, but the
Message Log has no entry at 5 (as after a cascade delete by user 2). -/
def stNoLog : Store where
  userChatIDs := fun p => if p = 1 then some [⟨5, 2⟩] else none
  chatData := fun _ => none
  unreadMessages := fun _ => none

end SecureChat

namespace SecureChat

/-- `pushNotification` touches only `unreadMessages`. -/
theorem pushNotification_chatData (st : Store) (caller receiver : Principal)
    (ID now : Nat) :
    (pushNotification st caller receiver ID now).chatData = st.chatData := by
  unfold pushNotification
  split <;> rfl

/-- `pushNotification` touches only `unreadMessages`. -/
theorem pushNotification_userChatIDs (st : Store) (caller receiver : Principal)
    (ID now : Nat) :
    (pushNotification st caller receiver ID now).userChatIDs = st.userChatIDs := by
  unfold pushNotification
  split <;> rfl

/-- The `removeAllSessions` loop body never writes to `userChatIDs`. -/
theorem cascadeOne_userChatIDs (caller : Principal) (st : Store) (s : Session) :
    (cascadeOne caller st s).userChatIDs = st.userChatIDs := by
  unfold cascadeOne
  simp only [jsIncludesFresh, Bool.false_eq_true, if_false]
  split
  · rfl
  · split <;> split <;> rfl

/-- Folding the `removeAllSessions` loop over any session list leaves
`userChatIDs` unchanged. -/
theorem foldl_cascadeOne_userChatIDs (caller : Principal) (sessions : List Session)
    (st : Store) :
    (sessions.foldl (cascadeOne caller) st).userChatIDs = st.userChatIDs := by
  induction sessions generalizing st with
  | nil => rfl
  | cons s rest ih => rw [List.foldl_cons, ih, cascadeOne_userChatIDs]

/-- C1: the claim fails on the code. In the state `stAB`, users 1 and 2
each list session id 5 with the other, yet `removeSession 1 2` deletes
the Message Log entry for id 5: the reciprocal-session guard
(`friendSession.Some.includes(removedSession)`) compares a freshly
allocated object by reference and never matches, so the cascade delete
always fires. -/
theorem removeSession_cascade_fires_despite_reciprocal :
    stAB.userChatIDs 1 = some [⟨5, 2⟩]
    ∧ stAB.userChatIDs 2 = some [⟨5, 1⟩]
    ∧ stAB.chatData 5 = some []
    ∧ (removeSession stAB 1 2).1 = .ok true
    ∧ (removeSession stAB 1 2).2.chatData 5 = none := by
  refine ⟨rfl, rfl, rfl, rfl, rfl⟩

/-- C4: the claim fails on the code. The id-generation loop accepts the
very first draw that is not an existing Message Log key; the random
source `Math.floor(Math.random() * INTEGER_LIMIT)` ranges over all
naturals below `INTEGER_LIMIT`, including 0, so over an empty Message Log
the stream whose first draw is 0 yields session id 0 — the value the
lookups reserve as the "no match" sentinel. -/
theorem generateSessionID_can_return_zero :
    generateSessionID emptyStore.chatData [0] = some 0 ∧ 0 < INTEGER_LIMIT := by
  exact ⟨rfl, by decide⟩

/-- C3 counterexample: user 1 holds exactly `MAXIMUM_SESSIONS` (20)
sessions, yet `createSession` with the fresh counterparty 50 succeeds
(the guard is `length > MAXIMUM_SESSIONS`, not `≥`), leaving 21 sessions
in the list. -/
theorem createSession_at_cap_succeeds :
    (st20.userChatIDs 1).map List.length = some MAXIMUM_SESSIONS
    ∧ (createSession st20 1 50 77).1 = .ok true
    ∧ ((createSession st20 1 50 77).2.userChatIDs 1).map List.length =
        some (MAXIMUM_SESSIONS + 1) := by
  refine ⟨by decide, rfl, by decide⟩

/-- C3 (amended): when the caller already has a directory entry,
`createSession` is rejected with `MaxSessionsReached` iff the existing
session count strictly exceeds `MAXIMUM_SESSIONS` — with exactly
`MAXIMUM_SESSIONS` sessions a fresh counterparty is still accepted — so
the caller's session list can reach, but never exceed,
`MAXIMUM_SESSIONS + 1` entries. -/
theorem createSession_cap_boundary (st : Store) (caller friendPrincipal : Principal)
    (newID : Nat) (userSessions : List Session)
    (hs : st.userChatIDs caller = some userSessions) :
    ((createSession st caller friendPrincipal newID).1 = .error .MaxSessionsReached
        ↔ MAXIMUM_SESSIONS < userSessions.length)
    ∧ (userSessions.length ≤ MAXIMUM_SESSIONS + 1 →
        ∀ l, (createSession st caller friendPrincipal newID).2.userChatIDs caller = some l →
          l.length ≤ MAXIMUM_SESSIONS + 1) := by
  unfold createSession
  simp only [hs]
  by_cases hlen : userSessions.length > MAXIMUM_SESSIONS
  · simp only [if_pos hlen]
    refine ⟨by simpa using hlen, ?_⟩
    intro hle l hl
    rw [hs] at hl
    cases hl
    omega
  · simp only [if_neg hlen]
    by_cases hdup : userSessions.any (fun s => s.user = friendPrincipal) = true
    · simp only [if_pos hdup]
      refine ⟨by simp; omega, ?_⟩
      intro hle l hl
      rw [hs] at hl
      cases hl
      omega
    · simp only [if_neg hdup]
      refine ⟨by simp; omega, ?_⟩
      intro hle l hl
      simp only [upd] at hl
      rw [if_pos trivial] at hl
      cases hl
      simp only [List.length_append, List.length_cons, List.length_nil]
      omega

/-- Witness for `createSession_cap_boundary` at the concrete state `st20`
(user 1 holds the 20 sessions `ex20`). -/
theorem createSession_cap_boundary_witness :
    ((createSession st20 1 50 77).1 = .error .MaxSessionsReached
        ↔ MAXIMUM_SESSIONS < ex20.length)
    ∧ (ex20.length ≤ MAXIMUM_SESSIONS + 1 →
        ∀ l, (createSession st20 1 50 77).2.userChatIDs 1 = some l →
          l.length ≤ MAXIMUM_SESSIONS + 1) :=
  createSession_cap_boundary st20 1 50 77 ex20 rfl

/-- C2: for a session the caller's directory resolves (non-zero id) whose
Message Log entry exists, `sendMessage` rejects with `MaxMessageReached`
iff the log already holds strictly more than `MAX_MSG_PER_SESSION` (200)
entries before the append; a send into a log of at most 200 entries
succeeds, and a log of at most 201 entries never grows past 201. -/
theorem sendMessage_maxMessage_boundary (st : Store) (caller receiver : Principal)
    (message : String) (now : Nat) (userSessions : List Session) (log : List Message)
    (hs : st.userChatIDs caller = some userSessions)
    (hID : scanID userSessions receiver ≠ 0)
    (hlog : st.chatData (scanID userSessions receiver) = some log) :
    ((sendMessage st caller receiver message now).1 = .error .MaxMessageReached
        ↔ MAX_MSG_PER_SESSION < log.length)
    ∧ (log.length ≤ MAX_MSG_PER_SESSION →
        (sendMessage st caller receiver message now).1 = .ok true)
    ∧ (log.length ≤ MAX_MSG_PER_SESSION + 1 →
        ∀ l, (sendMessage st caller receiver message now).2.chatData
            (scanID userSessions receiver) = some l →
          l.length ≤ MAX_MSG_PER_SESSION + 1) := by
  unfold sendMessage
  simp only [hs, if_neg hID, hlog]
  by_cases hlen : log.length > MAX_MSG_PER_SESSION
  · simp only [if_pos hlen]
    refine ⟨by simpa using hlen, by intro h; omega, ?_⟩
    intro hle l hl
    rw [hlog] at hl
    cases hl
    omega
  · simp only [if_neg hlen]
    refine ⟨by simp; omega, by intro h; trivial, ?_⟩
    intro hle l hl
    rw [pushNotification_chatData] at hl
    simp only [upd] at hl
    rw [if_pos trivial] at hl
    cases hl
    simp only [List.length_append, List.length_cons, List.length_nil]
    omega

/-- Witness for `sendMessage_maxMessage_boundary` at a session whose log
already holds 201 messages: the next send is rejected. -/
theorem sendMessage_maxMessage_boundary_witness :
    ((sendMessage (stLog 201) 1 2 "hi" 9).1 = .error .MaxMessageReached
        ↔ MAX_MSG_PER_SESSION < (mkMsgs 201).length)
    ∧ ((mkMsgs 201).length ≤ MAX_MSG_PER_SESSION →
        (sendMessage (stLog 201) 1 2 "hi" 9).1 = .ok true)
    ∧ ((mkMsgs 201).length ≤ MAX_MSG_PER_SESSION + 1 →
        ∀ l, (sendMessage (stLog 201) 1 2 "hi" 9).2.chatData
            (scanID [⟨5, 2⟩] 2) = some l →
          l.length ≤ MAX_MSG_PER_SESSION + 1) :=
  sendMessage_maxMessage_boundary (stLog 201) 1 2 "hi" 9 [⟨5, 2⟩] (mkMsgs 201)
    rfl (by decide) rfl

/-- If no session of the caller matches the counterparty, `removeSession`
returns `NotFound` and the whole store is returned unchanged. -/
theorem removeSession_no_match (st : Store) (caller friendPrincipal : Principal)
    (userSessions : List Session)
    (hs : st.userChatIDs caller = some userSessions)
    (hnm : ∀ s ∈ userSessions, s.user ≠ friendPrincipal) :
    removeSession st caller friendPrincipal = (.error .NotFound, st) := by
  unfold removeSession
  simp only [hs]
  have hfeq : userSessions.filter (fun s => !(s.user = friendPrincipal : Bool)) = userSessions := by
    apply List.filter_eq_self.mpr
    intro a ha
    simpa using hnm a ha
  rw [hfeq]
  simp

/-- After a `removeSession` that actually removed something, the caller's
directory entry is the filtered session list. -/
theorem removeSession_userChatIDs_after (st : Store) (caller friendPrincipal : Principal)
    (userSessions : List Session)
    (hs : st.userChatIDs caller = some userSessions)
    (hlen : (userSessions.filter (fun s => !(s.user = friendPrincipal : Bool))).length ≠ userSessions.length) :
    (removeSession st caller friendPrincipal).2.userChatIDs caller =
      some (userSessions.filter (fun s => !(s.user = friendPrincipal : Bool))) := by
  unfold removeSession
  simp only [hs, if_neg hlen]
  split
  · simp [upd]
  · simp only [jsIncludesFresh, Bool.false_eq_true, if_false]
    split <;> split <;> simp [upd]

/-- C7: with a directory entry present but no session matching the
counterparty, `removeSession` returns `NotFound` and leaves the entire
store (directory, Message Log, notification queues) unchanged; hence
after a successful `removeSession` a second call for the same
counterparty returns `NotFound`. -/
theorem removeSession_notFound_idempotent (st : Store) (caller friendPrincipal : Principal) :
    (∀ userSessions, st.userChatIDs caller = some userSessions →
      (∀ s ∈ userSessions, s.user ≠ friendPrincipal) →
      removeSession st caller friendPrincipal = (.error .NotFound, st))
    ∧ ((removeSession st caller friendPrincipal).1 = .ok true →
      (removeSession (removeSession st caller friendPrincipal).2 caller
          friendPrincipal).1 = .error .NotFound) := by
  constructor
  · intro userSessions hs hnm
    exact removeSession_no_match st caller friendPrincipal userSessions hs hnm
  · intro hok
    cases hcs : st.userChatIDs caller with
    | none =>
      unfold removeSession at hok
      rw [hcs] at hok
      simp at hok
    | some userSessions =>
      by_cases hlen : (userSessions.filter (fun s => !(s.user = friendPrincipal : Bool))).length = userSessions.length
      · unfold removeSession at hok
        rw [hcs] at hok
        simp only [if_pos hlen] at hok
        simp at hok
      · have hafter := removeSession_userChatIDs_after st caller friendPrincipal userSessions hcs hlen
        have hnm : ∀ s ∈ userSessions.filter (fun s => !(s.user = friendPrincipal : Bool)),
            s.user ≠ friendPrincipal := by
          intro s hsin
          have := List.of_mem_filter hsin
          simpa using this
        rw [removeSession_no_match _ caller friendPrincipal _ hafter hnm]

/-- Witness for `removeSession_notFound_idempotent` at the concrete state
`stAB`: user 1 removing a session with the unknown user 99 gets
`NotFound`, and removing the session with user 2 twice gets `NotFound`
the second time. -/
theorem removeSession_notFound_idempotent_witness :
    (removeSession stAB 1 99).1 = .error .NotFound
    ∧ (removeSession (removeSession stAB 1 2).2 1 2).1 = .error .NotFound := by
  constructor
  · rw [(removeSession_notFound_idempotent stAB 1 99).1 [⟨5, 2⟩] rfl (by decide)]
  · exact (removeSession_notFound_idempotent stAB 1 2).2 rfl

/-- C8: whenever `createSession` succeeds, an immediate `getSessionID`
with the same counterparty returns the id the create assigned. -/
theorem createSession_then_getSessionID (st : Store) (caller friendPrincipal : Principal)
    (newID : Nat)
    (hok : (createSession st caller friendPrincipal newID).1 = .ok true) :
    getSessionID (createSession st caller friendPrincipal newID).2 caller friendPrincipal
      = .ok newID := by
  cases hcs : st.userChatIDs caller with
  | none =>
    unfold getSessionID createSession
    simp [hcs, upd, List.find?]
  | some userSessions =>
    unfold createSession at hok ⊢
    rw [hcs] at hok
    simp only [hcs] at *
    by_cases hlen : userSessions.length > MAXIMUM_SESSIONS
    · rw [if_pos hlen] at hok
      simp at hok
    · rw [if_neg hlen] at hok ⊢
      by_cases hdup : userSessions.any (fun s => s.user = friendPrincipal) = true
      · rw [if_pos hdup] at hok
        simp at hok
      · rw [if_neg hdup] at hok ⊢
        unfold getSessionID
        simp only [upd, if_pos trivial]
        rw [List.find?_append]
        have hfind : userSessions.find? (fun s => s.user = friendPrincipal) = none := by
          rw [List.find?_eq_none]
          intro x hx
          simp only [List.any_eq_true, not_exists] at hdup
          intro hpx
          exact hdup x ⟨hx, hpx⟩
        rw [hfind]
        simp [List.find?]

/-- Witness for `createSession_then_getSessionID`: over the empty store,
user 1 creates a session with user 2 under id 7 and reads it back. -/
theorem createSession_then_getSessionID_witness :
    getSessionID (createSession emptyStore 1 2 7).2 1 2 = .ok 7 :=
  createSession_then_getSessionID emptyStore 1 2 7 rfl

/-- A caller with a directory entry always gets `ok` from
`removeAllSessions`. -/
theorem removeAllSessions_ok_of_entry (st : Store) (caller : Principal)
    (l : List Session) (h : st.userChatIDs caller = some l) :
    (removeAllSessions st caller).1 = .ok true := by
  unfold removeAllSessions
  simp only [h]

/-- C9: a successful `removeAllSessions` stores an empty list for the
caller rather than deleting the directory entry, so an immediate second
`removeAllSessions` still returns `ok` and `getAllSessions` returns the
empty list rather than `NoSession`. -/
theorem removeAllSessions_resets_to_empty (st : Store) (caller : Principal)
    (hok : (removeAllSessions st caller).1 = .ok true) :
    (removeAllSessions st caller).2.userChatIDs caller = some []
    ∧ (removeAllSessions (removeAllSessions st caller).2 caller).1 = .ok true
    ∧ getAllSessions (removeAllSessions st caller).2 caller = .ok [] := by
  cases hcs : st.userChatIDs caller with
  | none =>
    unfold removeAllSessions at hok
    rw [hcs] at hok
    simp at hok
  | some userSessions =>
    have h2 : (removeAllSessions st caller).2.userChatIDs caller = some [] := by
      unfold removeAllSessions
      simp only [hcs]
      simp [upd]
    refine ⟨h2, removeAllSessions_ok_of_entry _ caller [] h2, ?_⟩
    unfold getAllSessions
    rw [h2]

/-- Witness for `removeAllSessions_resets_to_empty` at the concrete state
`stAB`. -/
theorem removeAllSessions_resets_to_empty_witness :
    (removeAllSessions stAB 1).2.userChatIDs 1 = some []
    ∧ (removeAllSessions (removeAllSessions stAB 1).2 1).1 = .ok true
    ∧ getAllSessions (removeAllSessions stAB 1).2 1 = .ok [] :=
  removeAllSessions_resets_to_empty stAB 1 rfl

/-- C10: when the caller's directory resolves the receiver to a non-zero
session id but the Message Log has no entry at that id, `sendMessage`
succeeds, creates a fresh log entry holding only the new message (no
`MaxMessageReached` check applies), and still appends the receiver's
notification. -/
theorem sendMessage_missing_log (st : Store) (caller receiver : Principal)
    (message : String) (now : Nat) (userSessions : List Session)
    (hs : st.userChatIDs caller = some userSessions)
    (hID : scanID userSessions receiver ≠ 0)
    (hlog : st.chatData (scanID userSessions receiver) = none) :
    (sendMessage st caller receiver message now).1 = .ok true
    ∧ (sendMessage st caller receiver message now).2.chatData (scanID userSessions receiver) =
        some [{ sender := caller, receiver := receiver, messageText := message, messageTime := now }]
    ∧ (sendMessage st caller receiver message now).2.unreadMessages receiver =
        some ((st.unreadMessages receiver).getD []
          ++ [{ sender := caller, id := scanID userSessions receiver, messageTime := now }]) := by
  unfold sendMessage
  simp only [hs, if_neg hID, hlog]
  refine ⟨trivial, ?_, ?_⟩
  · rw [pushNotification_chatData]
    simp [upd]
  · unfold pushNotification
    cases hn : st.unreadMessages receiver <;> simp [hn, upd]

/-- Witness for `sendMessage_missing_log` at the concrete state `stNoLog`
(session listed, log entry absent). -/
theorem sendMessage_missing_log_witness :
    (sendMessage stNoLog 1 2 "hi" 9).1 = .ok true
    ∧ (sendMessage stNoLog 1 2 "hi" 9).2.chatData (scanID [⟨5, 2⟩] 2) =
        some [{ sender := 1, receiver := 2, messageText := "hi", messageTime := 9 }]
    ∧ (sendMessage stNoLog 1 2 "hi" 9).2.unreadMessages 2 =
        some ((stNoLog.unreadMessages 2).getD []
          ++ [{ sender := 1, id := scanID [⟨5, 2⟩] 2, messageTime := 9 }]) :=
  sendMessage_missing_log stNoLog 1 2 "hi" 9 [⟨5, 2⟩] rfl (by decide) rfl

/-- C6: when the caller's directory resolves the counterparty to a
non-zero session id with an existing Message Log entry, `viewMessages`
returns the full ordered message list and its only state change is
filtering the matching-id notifications out of the caller's own queue:
the directory, the Message Log, and every other user's queue are
unchanged. -/
theorem viewMessages_clears_only_matching (st : Store) (caller friendPrincipal : Principal)
    (userSessions : List Session) (log : List Message)
    (hs : st.userChatIDs caller = some userSessions)
    (hID : scanID userSessions friendPrincipal ≠ 0)
    (hlog : st.chatData (scanID userSessions friendPrincipal) = some log) :
    (viewMessages st caller friendPrincipal).1 = .ok log
    ∧ (viewMessages st caller friendPrincipal).2.userChatIDs = st.userChatIDs
    ∧ (viewMessages st caller friendPrincipal).2.chatData = st.chatData
    ∧ (∀ p, p ≠ caller →
        (viewMessages st caller friendPrincipal).2.unreadMessages p = st.unreadMessages p)
    ∧ (st.unreadMessages caller = none →
        (viewMessages st caller friendPrincipal).2.unreadMessages caller = none)
    ∧ (∀ q, st.unreadMessages caller = some q →
        (viewMessages st caller friendPrincipal).2.unreadMessages caller =
          some (q.filter (fun n => n.id != scanID userSessions friendPrincipal))) := by
  unfold viewMessages
  simp only [hs, if_neg hID, hlog]
  cases hn : st.unreadMessages caller with
  | none =>
    refine ⟨trivial, rfl, rfl, fun p hp => rfl, fun _ => hn, ?_⟩
    intro q hq
    cases hq
  | some q =>
    refine ⟨trivial, rfl, rfl, ?_, ?_, ?_⟩
    · intro p hp
      simp [upd, hp]
    · intro h
      cases h
    · intro q' hq'
      cases hq'
      simp [upd]

/-- Witness for `viewMessages_clears_only_matching` at the concrete state
`stNotifs`: viewing session 5 clears only the two id-5 notifications,
keeping the id-7 one. -/
theorem viewMessages_clears_only_matching_witness :
    (viewMessages stNotifs 1 2).1 = .ok (mkMsgs 2)
    ∧ (viewMessages stNotifs 1 2).2.userChatIDs = stNotifs.userChatIDs
    ∧ (viewMessages stNotifs 1 2).2.chatData = stNotifs.chatData
    ∧ (∀ p, p ≠ 1 →
        (viewMessages stNotifs 1 2).2.unreadMessages p = stNotifs.unreadMessages p)
    ∧ (stNotifs.unreadMessages 1 = none →
        (viewMessages stNotifs 1 2).2.unreadMessages 1 = none)
    ∧ (∀ q, stNotifs.unreadMessages 1 = some q →
        (viewMessages stNotifs 1 2).2.unreadMessages 1 =
          some (q.filter (fun n => n.id != scanID [⟨5, 2⟩, ⟨7, 3⟩] 2))) :=
  viewMessages_clears_only_matching stNotifs 1 2 [⟨5, 2⟩, ⟨7, 3⟩] (mkMsgs 2)
    rfl (by decide) rfl

/-- `createSession` keeps every session list's counterparties pairwise
distinct: the only list it changes is the caller's, either to a singleton
or by appending a counterparty the duplicate scan just ruled out. -/
theorem createSession_preserves_unique (st : Store) (caller friendPrincipal : Principal)
    (newID : Nat)
    (ih : ∀ p l, st.userChatIDs p = some l → uniqueCounterparties l) :
    ∀ p l, (createSession st caller friendPrincipal newID).2.userChatIDs p = some l →
      uniqueCounterparties l := by
  intro p l hl
  unfold createSession at hl
  cases hcs : st.userChatIDs caller with
  | none =>
    rw [hcs] at hl
    simp only [upd] at hl
    by_cases hp : p = caller
    · rw [if_pos hp] at hl
      cases hl
      exact List.pairwise_singleton _ _
    · rw [if_neg hp] at hl
      exact ih p l hl
  | some userSessions =>
    rw [hcs] at hl
    simp only at hl
    by_cases hlen : userSessions.length > MAXIMUM_SESSIONS
    · rw [if_pos hlen] at hl
      exact ih p l hl
    · rw [if_neg hlen] at hl
      by_cases hdup : userSessions.any (fun s => s.user = friendPrincipal) = true
      · rw [if_pos hdup] at hl
        exact ih p l hl
      · rw [if_neg hdup] at hl
        simp only [upd] at hl
        by_cases hp : p = caller
        · rw [if_pos hp] at hl
          cases hl
          rw [uniqueCounterparties, List.pairwise_append]
          refine ⟨ih caller userSessions hcs, List.pairwise_singleton _ _, ?_⟩
          intro a ha b hb
          simp only [List.mem_singleton] at hb
          subst hb
          intro heq
          apply hdup
          rw [List.any_eq_true]
          exact ⟨a, ha, by simp [heq]⟩
        · rw [if_neg hp] at hl
          exact ih p l hl

/-- `removeSession` either leaves the directory unchanged (error paths)
or replaces the caller's list by its filtered version. -/
theorem removeSession_userChatIDs_cases (st : Store) (caller friendPrincipal : Principal) :
    (removeSession st caller friendPrincipal).2.userChatIDs = st.userChatIDs
    ∨ ∃ userSessions, st.userChatIDs caller = some userSessions ∧
        (removeSession st caller friendPrincipal).2.userChatIDs =
          upd st.userChatIDs caller
            (some (userSessions.filter (fun s => !(s.user = friendPrincipal : Bool)))) := by
  unfold removeSession
  cases hcs : st.userChatIDs caller with
  | none =>
    left
    rfl
  | some userSessions =>
    simp only
    by_cases hlen : (userSessions.filter (fun s => !(s.user = friendPrincipal : Bool))).length = userSessions.length
    · left
      rw [if_pos hlen]
    · rw [if_neg hlen]
      right
      refine ⟨userSessions, rfl, ?_⟩
      split
      · rfl
      · simp only [jsIncludesFresh, Bool.false_eq_true, if_false]
        split <;> split <;> rfl

/-- `removeSession` keeps every session list's counterparties pairwise
distinct: a filtered list is a sublist of the original. -/
theorem removeSession_preserves_unique (st : Store) (caller friendPrincipal : Principal)
    (ih : ∀ p l, st.userChatIDs p = some l → uniqueCounterparties l) :
    ∀ p l, (removeSession st caller friendPrincipal).2.userChatIDs p = some l →
      uniqueCounterparties l := by
  intro p l hl
  rcases removeSession_userChatIDs_cases st caller friendPrincipal with h | ⟨us, hcs, h⟩
  · rw [h] at hl
    exact ih p l hl
  · rw [h] at hl
    simp only [upd] at hl
    by_cases hp : p = caller
    · rw [if_pos hp] at hl
      cases hl
      exact (ih caller us hcs).sublist (List.filter_sublist _)
    · rw [if_neg hp] at hl
      exact ih p l hl

/-- `removeAllSessions` keeps every session list's counterparties
pairwise distinct: the caller's list becomes empty and the loop never
writes to the directory. -/
theorem removeAllSessions_preserves_unique (st : Store) (caller : Principal)
    (ih : ∀ p l, st.userChatIDs p = some l → uniqueCounterparties l) :
    ∀ p l, (removeAllSessions st caller).2.userChatIDs p = some l →
      uniqueCounterparties l := by
  intro p l hl
  unfold removeAllSessions at hl
  cases hcs : st.userChatIDs caller with
  | none =>
    rw [hcs] at hl
    exact ih p l hl
  | some userSessions =>
    rw [hcs] at hl
    simp only [upd, foldl_cascadeOne_userChatIDs] at hl
    by_cases hp : p = caller
    · rw [if_pos hp] at hl
      cases hl
      exact List.Pairwise.nil
    · rw [if_neg hp] at hl
      exact ih p l hl

/-- C5: in every state reachable from the empty store by any sequence of
`createSession`, `removeSession` and `removeAllSessions` calls, the
counterparty values within each caller's session list are pairwise
distinct. -/
theorem sessionLists_unique_of_reachable {st : Store} (h : Reachable st) :
    ∀ p l, st.userChatIDs p = some l → uniqueCounterparties l := by
  induction h with
  | init =>
    intro p l hl
    exact Option.noConfusion hl
  | create caller friendPrincipal newID hst ih =>
    exact createSession_preserves_unique _ caller friendPrincipal newID ih
  | remove caller friendPrincipal hst ih =>
    exact removeSession_preserves_unique _ caller friendPrincipal ih
  | removeAll caller hst ih =>
    exact removeAllSessions_preserves_unique _ caller ih

/-- Witness for `sessionLists_unique_of_reachable` at the state reached
by one `createSession` from the empty store. -/
theorem sessionLists_unique_of_reachable_witness :
    uniqueCounterparties [⟨7, 2⟩] :=
  sessionLists_unique_of_reachable (Reachable.create 1 2 7 Reachable.init) 1 [⟨7, 2⟩] rfl

end SecureChat
